import Mathlib

/-!
Shallow embedding of `src/ha-touch-pad.ts` (the `TouchPad` Lit component).

Pointer coordinates, element sizes, thresholds and timestamps are modelled
as integers `ℤ`: the JS operations the component applies to them
(subtraction, absolute value, comparison, `Date.now()` differences) are
exact on integers, and `clientX`/`offsetWidth`/`Date.now()` carry integer
values.  The one real division in the source, the visual clamp bound
`(container − cursor) / 2` of `_handleMove`, is taken in `ℚ` so that an
odd difference keeps its exact half, as JS division does.

The single `setTimeout` handle `this._timeout` is modelled as an optional
absolute fire time `pendingTapAt`; `clearTimeout` sets it to `none`, and
the event-loop delivery of a due timer is the explicit step `advanceTo`.
-/

/-- The six gesture names the component passes to `_fireEvent`. -/
inductive Gesture
  | tap
  | double_tap
  | up
  | down
  | left
  | right
deriving DecidableEq, Repr

/-- `InternalConfig`: the three numeric thresholds plus one optional
action descriptor per gesture name (descriptors are opaque to the core,
carried as an arbitrary type `α`).  The dynamic lookup
`this._config[action + \x7b`_action`\x7d]` of the source is `actionFor` below. -/
structure InternalConfig (α : Type) where
  swipe_threshold : ℤ
  tap_threshold : ℤ
  tap_timeout : ℤ
  tap_action : Option α := none
  double_tap_action : Option α := none
  up_action : Option α := none
  down_action : Option α := none
  left_action : Option α := none
  right_action : Option α := none

/-- The per-gesture descriptor lookup performed by `_fireEvent`. -/
def InternalConfig.actionFor (c : InternalConfig α) : Gesture → Option α
  | .tap => c.tap_action
  | .double_tap => c.double_tap_action
  | .up => c.up_action
  | .down => c.down_action
  | .left => c.left_action
  | .right => c.right_action

/-- The outbound event built by `_fireEvent`:
`new Event('hass-action', \x7bbubbles: true, composed: true\x7d)` with
`detail = \x7bconfig: \x7btap_action: config\x7d, action: 'tap'\x7d`. -/
structure TouchActionEvent (α : Type) where
  eventType : String
  bubbles : Bool
  composed : Bool
  action : String
  tap_action : α
deriving DecidableEq, Repr

/-- `_fireEvent(action)`: looks up the configured descriptor; dispatches no
event when none is configured, otherwise exactly one `hass-action` event
carrying `\x7bconfig: \x7btap_action: <descriptor>\x7d, action: 'tap'\x7d`. -/
def _fireEvent (c : InternalConfig α) (g : Gesture) : Option (TouchActionEvent α) :=
  match c.actionFor g with
  | none => none
  | some cfg =>
      some { eventType := "hass-action", bubbles := true, composed := true,
             action := "tap", tap_action := cfg }

/-- The mutable component state: `_startX`, `_startY`, `_lastTouch`
(`none` models the initially-undefined field), the `_timeout` handle as
the absolute time at which the scheduled deferred tap would fire,
`_mouseDown`, the circle's inline style (`circleLeft`/`circleTop` are
`none` when the style is `50%`, i.e. centered, and `some d` when it is
`calc(50% + d px)`; `transitionOn` is whether the return transition
`top 0.5s, left 0.5s` is set rather than `none`), and whether the
listeners added by `connectedCallback` are attached. -/
structure PadState where
  startX : ℤ
  startY : ℤ
  lastTouch : Option ℤ
  pendingTapAt : Option ℤ
  mouseDown : Bool
  circleLeft : Option ℚ
  circleTop : Option ℚ
  transitionOn : Bool
  listenersAttached : Bool
deriving DecidableEq, Repr

/-- The double-tap test `currentTimestamp - this._lastTouch < tap_timeout`.
When `_lastTouch` is still undefined the JS subtraction yields `NaN` and
the comparison is false, modelled by the `none` case. -/
def withinDoubleTapWindow : Option ℤ → ℤ → ℤ → Prop
  | some lt, now, timeout => now - lt < timeout
  | none, _, _ => False

instance (lt : Option ℤ) (now timeout : ℤ) :
    Decidable (withinDoubleTapWindow lt now timeout) :=
  match lt with
  | some t => inferInstanceAs (Decidable (now - t < timeout))
  | none => inferInstanceAs (Decidable False)

/-- `_handleStart(event)`: records the press origin, sets
`_mouseDown = !isTouch`, and disables the circle's transition. -/
def _handleStart (s : PadState) (x y : ℤ) (isTouch : Bool) : PadState :=
  { s with mouseDown := !isTouch, startX := x, startY := y, transitionOn := false }

/-- `_handleMove(event)`: ignored when a non-touch move arrives with no
mouse button held; otherwise clamps the raw displacement from the origin
to `±(container − cursor)/2` per axis and moves the circle there.
`W, H` are `this.offsetWidth/offsetHeight`; `w, h` are
`this._circle.offsetWidth/offsetHeight`. -/
def _handleMove (W H w h : ℤ) (s : PadState) (x y : ℤ) (isTouch : Bool) : PadState :=
  if !isTouch && !s.mouseDown then s
  else
    let maxDeltaX : ℚ := (W - w : ℤ) / 2
    let maxDeltaY : ℚ := (H - h : ℤ) / 2
    let left := max (min ((x - s.startX : ℤ) : ℚ) maxDeltaX) (-maxDeltaX)
    let top := max (min ((y - s.startY : ℤ) : ℚ) maxDeltaY) (-maxDeltaY)
    { s with circleLeft := some left, circleTop := some top }

/-- `_handleEnd(event)`: clears `_mouseDown`, then the early-ignore guard
`if (!isTouch && !this._mouseDown) return` (which, the flag having just
been cleared, always fires for non-touch events); otherwise computes raw
and absolute displacement from the origin, resets the circle to center
with the return transition on, and classifies: tap region (with the
double-tap window test, deferred-tap scheduling, and the unconditional
`_lastTouch` update afterwards), then horizontal swipe, then vertical
swipe, else nothing.  Returns the new state and the list of gesture names
passed to `_fireEvent`, in order. -/
def _handleEnd (c : InternalConfig α) (s : PadState) (x y : ℤ) (isTouch : Bool)
    (now : ℤ) : PadState × List Gesture :=
  let s0 := { s with mouseDown := false }
  if !isTouch && !s0.mouseDown then (s0, [])
  else
    let rawDeltaX := x - s0.startX
    let rawDeltaY := y - s0.startY
    let deltaX := |rawDeltaX|
    let deltaY := |rawDeltaY|
    let s1 := { s0 with transitionOn := true, circleLeft := none, circleTop := none }
    if deltaX < c.tap_threshold ∧ deltaY < c.tap_threshold then
      let s2 := { s1 with pendingTapAt := none }
      let r :=
        if withinDoubleTapWindow s2.lastTouch now c.tap_timeout then
          (s2, [Gesture.double_tap])
        else
          ({ s2 with pendingTapAt := some (now + c.tap_timeout) }, [])
      ({ r.1 with lastTouch := some now }, r.2)
    else if deltaX > deltaY ∧ deltaX > c.swipe_threshold then
      (s1, [if rawDeltaX > 0 then Gesture.right else Gesture.left])
    else if deltaY > deltaX ∧ deltaY > c.swipe_threshold then
      (s1, [if rawDeltaY > 0 then Gesture.down else Gesture.up])
    else
      (s1, [])

/-- Event-loop semantics of the single `setTimeout` handle: advancing the
clock to time `t` delivers the deferred-tap callback (which calls
`_fireEvent('tap')` and clears the handle) exactly when its scheduled
fire time has been reached. -/
def advanceTo (s : PadState) (t : ℤ) : PadState × List Gesture :=
  match s.pendingTapAt with
  | some ft =>
      if ft ≤ t then ({ s with pendingTapAt := none }, [Gesture.tap])
      else (s, [])
  | none => (s, [])

/-- `connectedCallback()`: attaches the touch and mouse listeners. -/
def connectedCallback (s : PadState) : PadState :=
  { s with listenersAttached := true }

/-- `disconnectedCallback()`: removes the touch and mouse listeners.  It
touches nothing else — in particular it does not call
`clearTimeout(this._timeout)`, so a pending deferred tap survives it. -/
def disconnectedCallback (s : PadState) : PadState :=
  { s with listenersAttached := false }

/-- A resting state used to instantiate theorems on concrete inputs. -/
def idleState : PadState :=
  { startX := 0, startY := 0, lastTouch := none, pendingTapAt := none,
    mouseDown := false, circleLeft := none, circleTop := none,
    transitionOn := false, listenersAttached := true }

/-- The default thresholds of `setConfig`, with no actions configured
(descriptor type `ℕ`). -/
def defaultConfig : InternalConfig ℕ :=
  { swipe_threshold := 50, tap_threshold := 5, tap_timeout := 200 }

/-- A session state whose press origin is `(100, 100)`. -/
def pressState : PadState :=
  { startX := 100, startY := 100, lastTouch := none, pendingTapAt := none,
    mouseDown := false, circleLeft := none, circleTop := none,
    transitionOn := false, listenersAttached := true }

/-- A mid-drag mouse state: button held, circle dragged off-center,
transition disabled since the press. -/
def mouseDragState : PadState :=
  { startX := 0, startY := 0, lastTouch := none, pendingTapAt := none,
    mouseDown := true, circleLeft := some 10, circleTop := some 10,
    transitionOn := false, listenersAttached := true }

/-- The component state right after a fresh qualifying tap released at
`(101, 101)` at time 1000: the deferred tap is scheduled for 1200. -/
def tappedState : PadState :=
  (_handleEnd defaultConfig pressState 101 101 true 1000).1

/-- The emissions and final state of the four-step touch trace:
press at `(x1, y1)`, release at `(u1, v1)` at time `t1`, clock advance to
`t2`, press at `(x2, y2)`, release at `(u2, v2)` at time `t2`. -/
def twoTapTrace (c : InternalConfig α) (s0 : PadState)
    (x1 y1 u1 v1 x2 y2 u2 v2 t1 t2 : ℤ) : List Gesture × PadState :=
  let r1 := _handleEnd c (_handleStart s0 x1 y1 true) u1 v1 true t1
  let r2 := advanceTo r1.1 t2
  let r3 := _handleEnd c (_handleStart r2.1 x2 y2 true) u2 v2 true t2
  (r1.2 ++ r2.2 ++ r3.2, r3.1)

/-- The emissions and final state of the six-step touch trace of three
presses and releases at times `t1`, `t2`, `t3`, with clock advances
between the releases. -/
def threeTapTrace (c : InternalConfig α) (s0 : PadState)
    (x1 y1 u1 v1 x2 y2 u2 v2 x3 y3 u3 v3 t1 t2 t3 : ℤ) : List Gesture × PadState :=
  let r1 := _handleEnd c (_handleStart s0 x1 y1 true) u1 v1 true t1
  let r2 := advanceTo r1.1 t2
  let r3 := _handleEnd c (_handleStart r2.1 x2 y2 true) u2 v2 true t2
  let r4 := advanceTo r3.1 t3
  let r5 := _handleEnd c (_handleStart r4.1 x3 y3 true) u3 v3 true t3
  (r1.2 ++ r2.2 ++ r3.2 ++ r4.2 ++ r5.2, r5.1)

/-- C10: on a non-touch press-end the handler sets `_mouseDown := false`
first and only then evaluates the early-ignore guard, which therefore
always triggers: the result, for every configuration (so no threshold is
read), is exactly the state with the flag cleared and no gesture — in
particular the visual cursor is not reset. -/
theorem mouse_end_only_clears_flag (α : Type) (c : InternalConfig α) (s : PadState)
    (x y now : ℤ) :
    _handleEnd c s x y false now = ({ s with mouseDown := false }, []) := by
  simp [_handleEnd]

/-- C7: `_fireEvent` returns no event when no descriptor is configured for
the gesture, and exactly one `hass-action` event carrying
`\x7baction: "tap", config: \x7btap_action: <descriptor>\x7d\x7d` (the descriptor
passed through unchanged) when one is. -/
theorem fireEvent_emission (α : Type) (c : InternalConfig α) (g : Gesture) :
    _fireEvent c g = Option.map (fun d =>
      { eventType := "hass-action", bubbles := true, composed := true,
        action := "tap", tap_action := d }) (c.actionFor g) := by
  cases h : c.actionFor g <;> simp [_fireEvent, h]

/-- C6 (amended): on every touch press-end, whatever the classification
outcome, the circle is reset to center (`left`/`top` back to `50%`) and
the return transition re-enabled. -/
theorem touch_end_resets_circle (α : Type) (c : InternalConfig α) (s : PadState)
    (x y now : ℤ) :
    (_handleEnd c s x y true now).1.circleLeft = none ∧
    (_handleEnd c s x y true now).1.circleTop = none ∧
    (_handleEnd c s x y true now).1.transitionOn = true := by
  simp only [_handleEnd]
  (repeat' split) <;> simp_all

/-- C3: the tap region is checked first (inside it a release never yields a
swipe, only nothing or a `double_tap`); outside it, `deltaX > deltaY` and
`deltaX > swipe_threshold` yield exactly `right` when `rawDeltaX > 0` and
`left` otherwise, never a vertical gesture; symmetrically `deltaY > deltaX`
and `deltaY > swipe_threshold` yield exactly `down` when `rawDeltaY > 0`
and `up` otherwise. -/
theorem swipe_classification (α : Type) (c : InternalConfig α) (s : PadState)
    (x y now : ℤ) :
    ((|x - s.startX| < c.tap_threshold ∧ |y - s.startY| < c.tap_threshold) →
      (_handleEnd c s x y true now).2 = [] ∨
      (_handleEnd c s x y true now).2 = [Gesture.double_tap]) ∧
    (¬(|x - s.startX| < c.tap_threshold ∧ |y - s.startY| < c.tap_threshold) →
      |x - s.startX| > |y - s.startY| → |x - s.startX| > c.swipe_threshold →
      (_handleEnd c s x y true now).2 =
        [if x - s.startX > 0 then Gesture.right else Gesture.left]) ∧
    (¬(|x - s.startX| < c.tap_threshold ∧ |y - s.startY| < c.tap_threshold) →
      |y - s.startY| > |x - s.startX| → |y - s.startY| > c.swipe_threshold →
      (_handleEnd c s x y true now).2 =
        [if y - s.startY > 0 then Gesture.down else Gesture.up]) := by
  refine ⟨fun h => ?_, fun hnt hd hs => ?_, fun hnt hd hs => ?_⟩ <;>
    · simp only [_handleEnd]
      (repeat' split) <;> simp_all [sub_pos] <;>
        exact absurd (And.left ‹_ ∧ _›) (lt_asymm hd)

/-- C3 witness: with the default thresholds and origin `(100, 100)`, a
release at `(160, 110)` (so `deltaX = 60 > deltaY = 10`, `rawDeltaX > 0`)
emits exactly `right`; a release at `(110, 40)` (`deltaY = 60 > deltaX =
10`, `rawDeltaY < 0`) emits exactly `up`; and a release at `(101, 101)`
inside the tap region yields no swipe. -/
theorem swipe_classification_witness :
    (_handleEnd defaultConfig pressState 160 110 true 1000).2 = [Gesture.right] ∧
    (_handleEnd defaultConfig pressState 110 40 true 1000).2 = [Gesture.up] ∧
    ((_handleEnd defaultConfig pressState 101 101 true 1000).2 = [] ∨
     (_handleEnd defaultConfig pressState 101 101 true 1000).2 = [Gesture.double_tap]) := by
  refine ⟨?_, ?_, ?_⟩
  · rw [(swipe_classification ℕ defaultConfig pressState 160 110 1000).2.1
      (by decide) (by decide) (by decide)]
    decide
  · rw [(swipe_classification ℕ defaultConfig pressState 110 40 1000).2.2
      (by decide) (by decide) (by decide)]
    decide
  · exact (swipe_classification ℕ defaultConfig pressState 101 101 1000).1 (by decide)

/-- C4: a release outside the tap region that satisfies neither swipe
condition (the dominant axis not above `swipe_threshold`, or a tie
`deltaX = deltaY`) emits no gesture. -/
theorem dead_zone_no_gesture (α : Type) (c : InternalConfig α) (s : PadState)
    (x y now : ℤ)
    (h1 : ¬(|x - s.startX| < c.tap_threshold ∧ |y - s.startY| < c.tap_threshold))
    (h2 : ¬(|x - s.startX| > |y - s.startY| ∧ |x - s.startX| > c.swipe_threshold))
    (h3 : ¬(|y - s.startY| > |x - s.startX| ∧ |y - s.startY| > c.swipe_threshold)) :
    (_handleEnd c s x y true now).2 = [] := by
  simp only [_handleEnd]
  (repeat' split) <;> simp_all

/-- C4 witness: with the default thresholds and origin `(100, 100)`, the
tied release at `(160, 160)` (`deltaX = deltaY = 60`) emits nothing. -/
theorem dead_zone_no_gesture_witness :
    (_handleEnd defaultConfig pressState 160 160 true 1000).2 = [] :=
  dead_zone_no_gesture ℕ defaultConfig pressState 160 160 1000
    (by decide) (by decide) (by decide)

/-- Helper: the complete effect of a touch release in the tap region when
the double-tap window test fails — nothing is emitted and the deferred tap
is scheduled for `now + tap_timeout`. -/
theorem handleEnd_defer (α : Type) (c : InternalConfig α) (s : PadState)
    (x y now : ℤ)
    (hx : |x - s.startX| < c.tap_threshold) (hy : |y - s.startY| < c.tap_threshold)
    (hnot : ¬ withinDoubleTapWindow s.lastTouch now c.tap_timeout) :
    _handleEnd c s x y true now =
      ({ s with mouseDown := false, transitionOn := true, circleLeft := none,
                circleTop := none, pendingTapAt := some (now + c.tap_timeout),
                lastTouch := some now }, []) := by
  simp only [_handleEnd]
  rw [if_neg (by simp), if_pos ⟨hx, hy⟩, if_neg hnot]

/-- Helper: the complete effect of a touch release in the tap region when
the double-tap window test succeeds — `double_tap` is emitted immediately,
the handle stays cleared, and `_lastTouch` is still updated. -/
theorem handleEnd_double (α : Type) (c : InternalConfig α) (s : PadState)
    (x y now : ℤ)
    (hx : |x - s.startX| < c.tap_threshold) (hy : |y - s.startY| < c.tap_threshold)
    (hwin : withinDoubleTapWindow s.lastTouch now c.tap_timeout) :
    _handleEnd c s x y true now =
      ({ s with mouseDown := false, transitionOn := true, circleLeft := none,
                circleTop := none, pendingTapAt := none,
                lastTouch := some now }, [Gesture.double_tap]) := by
  simp only [_handleEnd]
  rw [if_neg (by simp), if_pos ⟨hx, hy⟩, if_pos hwin]

/-- Helper: advancing the clock to a time before the scheduled fire time
delivers nothing. -/
theorem advanceTo_not_yet (s : PadState) (t : ℤ)
    (h : ∀ ft, s.pendingTapAt = some ft → t < ft) :
    advanceTo s t = (s, []) := by
  cases hp : s.pendingTapAt with
  | none => simp only [advanceTo, hp]
  | some ft =>
      have hlt := h ft hp
      simp only [advanceTo, hp]
      rw [if_neg (by omega)]

/-- Helper: advancing the clock to (or past) the scheduled fire time
delivers exactly one deferred `tap` and clears the handle. -/
theorem advanceTo_fire (s : PadState) (t ft : ℤ)
    (hp : s.pendingTapAt = some ft) (hle : ft ≤ t) :
    advanceTo s t = ({ s with pendingTapAt := none }, [Gesture.tap]) := by
  simp only [advanceTo, hp]
  rw [if_pos hle]

/-- C1: a touch release inside the tap region with no prior tap within
`tap_timeout` emits nothing at release time; it schedules the deferred tap
for `now + tap_timeout`, before which nothing fires, and once the clock
reaches that time exactly one `tap` is delivered and the handle clears, so
no further tap can fire. -/
theorem deferred_single_tap (α : Type) (c : InternalConfig α) (s : PadState)
    (x y now t : ℤ)
    (hx : |x - s.startX| < c.tap_threshold) (hy : |y - s.startY| < c.tap_threshold)
    (hprior : ∀ lt, s.lastTouch = some lt → c.tap_timeout ≤ now - lt) :
    (_handleEnd c s x y true now).2 = [] ∧
    (_handleEnd c s x y true now).1.pendingTapAt = some (now + c.tap_timeout) ∧
    (t < now + c.tap_timeout →
      advanceTo (_handleEnd c s x y true now).1 t =
        ((_handleEnd c s x y true now).1, [])) ∧
    (now + c.tap_timeout ≤ t →
      (advanceTo (_handleEnd c s x y true now).1 t).2 = [Gesture.tap] ∧
      (advanceTo (_handleEnd c s x y true now).1 t).1.pendingTapAt = none) := by
  have hnot : ¬ withinDoubleTapWindow s.lastTouch now c.tap_timeout := by
    cases hl : s.lastTouch with
    | none => simp [withinDoubleTapWindow]
    | some lt =>
        have h := hprior lt hl
        simp only [withinDoubleTapWindow]
        omega
  have hE := handleEnd_defer α c s x y now hx hy hnot
  refine ⟨by rw [hE], by rw [hE], fun ht => ?_, fun ht => ?_⟩
  · rw [hE]
    exact advanceTo_not_yet _ t (by intro ft hft; simp_all)
  · rw [hE, advanceTo_fire _ t (now + c.tap_timeout) rfl ht]
    exact ⟨rfl, rfl⟩

/-- C1 witness: origin `(100, 100)`, release at `(101, 101)` at time 1000
with the default config (`tap_timeout = 200`): nothing is emitted at
release, the deferred tap is scheduled for 1200, and advancing the clock
to 1200 delivers exactly one `tap`. -/
theorem deferred_single_tap_witness :
    (_handleEnd defaultConfig pressState 101 101 true 1000).2 = [] ∧
    (_handleEnd defaultConfig pressState 101 101 true 1000).1.pendingTapAt = some 1200 ∧
    (advanceTo (_handleEnd defaultConfig pressState 101 101 true 1000).1 1200).2 =
      [Gesture.tap] := by
  have h := deferred_single_tap ℕ defaultConfig pressState 101 101 1000 1200
    (by decide) (by decide) (by intro lt hl; simp [pressState] at hl)
  exact ⟨h.1, h.2.1, (h.2.2.2 (by decide)).1⟩

/-- C2: two qualifying tap releases within `tap_timeout` of each other
(starting from a state with no handle outstanding and no recent tap) emit,
across the whole trace, exactly one `double_tap` and zero `tap`s: the
first release's deferred tap has not fired by `t2` and is canceled by the
second release, which emits `double_tap` immediately and leaves no handle
outstanding. -/
theorem double_tap_merge (α : Type) (c : InternalConfig α) (s0 : PadState)
    (x1 y1 u1 v1 x2 y2 u2 v2 t1 t2 : ℤ)
    (hfresh : ∀ lt, s0.lastTouch = some lt → c.tap_timeout ≤ t1 - lt)
    (h1x : |u1 - x1| < c.tap_threshold) (h1y : |v1 - y1| < c.tap_threshold)
    (h2x : |u2 - x2| < c.tap_threshold) (h2y : |v2 - y2| < c.tap_threshold)
    (hgap : t2 - t1 < c.tap_timeout) :
    (twoTapTrace c s0 x1 y1 u1 v1 x2 y2 u2 v2 t1 t2).1 = [Gesture.double_tap] ∧
    (twoTapTrace c s0 x1 y1 u1 v1 x2 y2 u2 v2 t1 t2).2.pendingTapAt = none := by
  have hE1 := handleEnd_defer α c (_handleStart s0 x1 y1 true) u1 v1 t1
    (by simpa [_handleStart] using h1x) (by simpa [_handleStart] using h1y)
    (by
      simp only [_handleStart]
      cases hl : s0.lastTouch with
      | none => simp [withinDoubleTapWindow]
      | some lt =>
          have h := hfresh lt hl
          simp only [withinDoubleTapWindow]
          omega)
  have hA : advanceTo (_handleEnd c (_handleStart s0 x1 y1 true) u1 v1 true t1).1 t2 =
      ((_handleEnd c (_handleStart s0 x1 y1 true) u1 v1 true t1).1, []) := by
    apply advanceTo_not_yet
    intro ft hft
    rw [hE1] at hft
    simp only [_handleStart] at hft
    simp only [Option.some.injEq] at hft
    omega
  have hL : (advanceTo (_handleEnd c (_handleStart s0 x1 y1 true) u1 v1 true t1).1
      t2).1.lastTouch = some t1 := by
    rw [hA, hE1]
  have hE2 := handleEnd_double α c
    (_handleStart
      (advanceTo (_handleEnd c (_handleStart s0 x1 y1 true) u1 v1 true t1).1 t2).1
      x2 y2 true)
    u2 v2 t2
    (by simpa [_handleStart] using h2x) (by simpa [_handleStart] using h2y)
    (by
      show withinDoubleTapWindow
        (advanceTo (_handleEnd c (_handleStart s0 x1 y1 true) u1 v1 true t1).1
          t2).1.lastTouch t2 c.tap_timeout
      rw [hL]
      simp only [withinDoubleTapWindow]
      omega)
  constructor
  · show ((_handleEnd c (_handleStart s0 x1 y1 true) u1 v1 true t1).2 ++
      (advanceTo (_handleEnd c (_handleStart s0 x1 y1 true) u1 v1 true t1).1 t2).2 ++
      (_handleEnd c (_handleStart
        (advanceTo (_handleEnd c (_handleStart s0 x1 y1 true) u1 v1 true t1).1 t2).1
        x2 y2 true) u2 v2 true t2).2) = [Gesture.double_tap]
    rw [hE2, hA, hE1]
    rfl
  · show (_handleEnd c (_handleStart
      (advanceTo (_handleEnd c (_handleStart s0 x1 y1 true) u1 v1 true t1).1 t2).1
      x2 y2 true) u2 v2 true t2).1.pendingTapAt = none
    rw [hE2]

/-- C2 witness: the spec's end-to-end example — press/release at
`(100, 100)` at time 1000, press/release at `(100, 103)` at time 1050,
default thresholds: exactly one `double_tap`, zero `tap`s, handle clear. -/
theorem double_tap_merge_witness :
    (twoTapTrace defaultConfig idleState 100 100 100 100 100 103 100 103
      1000 1050).1 = [Gesture.double_tap] ∧
    (twoTapTrace defaultConfig idleState 100 100 100 100 100 103 100 103
      1000 1050).2.pendingTapAt = none :=
  double_tap_merge ℕ defaultConfig idleState 100 100 100 100 100 103 100 103
    1000 1050 (by intro lt hl; simp [idleState] at hl)
    (by decide) (by decide) (by decide) (by decide) (by decide)

/-- C9: `_lastTouch` is set to the current time on every tap-region
release, the double-tap branch included; consequently three rapid
qualifying taps (each release within `tap_timeout` of the previous one)
yield two immediate `double_tap`s and zero `tap`s. -/
theorem lastTouch_unconditional_triple_tap (α : Type) (c : InternalConfig α)
    (s0 : PadState) (x1 y1 u1 v1 x2 y2 u2 v2 x3 y3 u3 v3 t1 t2 t3 : ℤ)
    (hfresh : ∀ lt, s0.lastTouch = some lt → c.tap_timeout ≤ t1 - lt)
    (h1x : |u1 - x1| < c.tap_threshold) (h1y : |v1 - y1| < c.tap_threshold)
    (h2x : |u2 - x2| < c.tap_threshold) (h2y : |v2 - y2| < c.tap_threshold)
    (h3x : |u3 - x3| < c.tap_threshold) (h3y : |v3 - y3| < c.tap_threshold)
    (hgap2 : t2 - t1 < c.tap_timeout) (hgap3 : t3 - t2 < c.tap_timeout) :
    (∀ (s : PadState) (x y now : ℤ),
      |x - s.startX| < c.tap_threshold → |y - s.startY| < c.tap_threshold →
      (_handleEnd c s x y true now).1.lastTouch = some now) ∧
    (threeTapTrace c s0 x1 y1 u1 v1 x2 y2 u2 v2 x3 y3 u3 v3 t1 t2 t3).1 =
      [Gesture.double_tap, Gesture.double_tap] := by
  have hE1 := handleEnd_defer α c (_handleStart s0 x1 y1 true) u1 v1 t1
    (by simpa [_handleStart] using h1x) (by simpa [_handleStart] using h1y)
    (by
      simp only [_handleStart]
      cases hl : s0.lastTouch with
      | none => simp [withinDoubleTapWindow]
      | some lt =>
          have h := hfresh lt hl
          simp only [withinDoubleTapWindow]
          omega)
  have hA2 : advanceTo (_handleEnd c (_handleStart s0 x1 y1 true) u1 v1 true t1).1 t2 =
      ((_handleEnd c (_handleStart s0 x1 y1 true) u1 v1 true t1).1, []) := by
    apply advanceTo_not_yet
    intro ft hft
    rw [hE1] at hft
    simp only [Option.some.injEq] at hft
    omega
  have hL2 : (advanceTo (_handleEnd c (_handleStart s0 x1 y1 true) u1 v1 true t1).1
      t2).1.lastTouch = some t1 := by
    rw [hA2, hE1]
  have hE2 := handleEnd_double α c
    (_handleStart
      (advanceTo (_handleEnd c (_handleStart s0 x1 y1 true) u1 v1 true t1).1 t2).1
      x2 y2 true)
    u2 v2 t2
    (by simpa [_handleStart] using h2x) (by simpa [_handleStart] using h2y)
    (by
      show withinDoubleTapWindow
        (advanceTo (_handleEnd c (_handleStart s0 x1 y1 true) u1 v1 true t1).1
          t2).1.lastTouch t2 c.tap_timeout
      rw [hL2]
      simp only [withinDoubleTapWindow]
      omega)
  have hA3 : advanceTo (_handleEnd c (_handleStart
      (advanceTo (_handleEnd c (_handleStart s0 x1 y1 true) u1 v1 true t1).1 t2).1
      x2 y2 true) u2 v2 true t2).1 t3 =
      ((_handleEnd c (_handleStart
        (advanceTo (_handleEnd c (_handleStart s0 x1 y1 true) u1 v1 true t1).1 t2).1
        x2 y2 true) u2 v2 true t2).1, []) := by
    apply advanceTo_not_yet
    intro ft hft
    rw [hE2] at hft
    simp at hft
  have hL3 : (advanceTo (_handleEnd c (_handleStart
      (advanceTo (_handleEnd c (_handleStart s0 x1 y1 true) u1 v1 true t1).1 t2).1
      x2 y2 true) u2 v2 true t2).1 t3).1.lastTouch = some t2 := by
    rw [hA3, hE2]
  have hE3 := handleEnd_double α c
    (_handleStart (advanceTo (_handleEnd c (_handleStart
      (advanceTo (_handleEnd c (_handleStart s0 x1 y1 true) u1 v1 true t1).1 t2).1
      x2 y2 true) u2 v2 true t2).1 t3).1 x3 y3 true)
    u3 v3 t3
    (by simpa [_handleStart] using h3x) (by simpa [_handleStart] using h3y)
    (by
      show withinDoubleTapWindow
        (advanceTo (_handleEnd c (_handleStart
          (advanceTo (_handleEnd c (_handleStart s0 x1 y1 true) u1 v1 true t1).1 t2).1
          x2 y2 true) u2 v2 true t2).1 t3).1.lastTouch t3 c.tap_timeout
      rw [hL3]
      simp only [withinDoubleTapWindow]
      omega)
  constructor
  · intro s x y now hx hy
    simp only [_handleEnd]
    rw [if_neg (by simp), if_pos ⟨hx, hy⟩]
  · show ((_handleEnd c (_handleStart s0 x1 y1 true) u1 v1 true t1).2 ++
      (advanceTo (_handleEnd c (_handleStart s0 x1 y1 true) u1 v1 true t1).1 t2).2 ++
      (_handleEnd c (_handleStart
        (advanceTo (_handleEnd c (_handleStart s0 x1 y1 true) u1 v1 true t1).1 t2).1
        x2 y2 true) u2 v2 true t2).2 ++
      (advanceTo (_handleEnd c (_handleStart
        (advanceTo (_handleEnd c (_handleStart s0 x1 y1 true) u1 v1 true t1).1 t2).1
        x2 y2 true) u2 v2 true t2).1 t3).2 ++
      (_handleEnd c (_handleStart (advanceTo (_handleEnd c (_handleStart
        (advanceTo (_handleEnd c (_handleStart s0 x1 y1 true) u1 v1 true t1).1 t2).1
        x2 y2 true) u2 v2 true t2).1 t3).1 x3 y3 true) u3 v3 true t3).2) =
      [Gesture.double_tap, Gesture.double_tap]
    rw [hE3, hA3, hE2, hA2, hE1]
    rfl

/-- C9 witness: three qualifying taps at origin `(100, 100)` at times
1000, 1100 and 1199 with the default config yield exactly two
`double_tap`s, and a tap-region release updates `_lastTouch` to release
time on the deferred branch as well. -/
theorem lastTouch_unconditional_triple_tap_witness :
    (_handleEnd defaultConfig pressState 101 101 true 1000).1.lastTouch = some 1000 ∧
    (threeTapTrace defaultConfig idleState 100 100 100 100 100 103 100 103
      100 101 100 101 1000 1100 1199).1 =
      [Gesture.double_tap, Gesture.double_tap] := by
  have h := lastTouch_unconditional_triple_tap ℕ defaultConfig idleState
    100 100 100 100 100 103 100 103 100 101 100 101 1000 1100 1199
    (by intro lt hl; simp [idleState] at hl)
    (by decide) (by decide) (by decide) (by decide) (by decide) (by decide)
    (by decide) (by decide)
  exact ⟨h.1 pressState 101 101 1000 (by decide) (by decide), h.2⟩

/-- Helper: the gesture classification of `_handleEnd` never reads the
circle's visual style, so changing only `circleLeft`/`circleTop`
beforehand changes nothing in the emitted gestures. -/
theorem handleEnd_ignores_circle (α : Type) (c : InternalConfig α) (s : PadState)
    (a b : Option ℚ) (x y : ℤ) (tch : Bool) (now : ℤ) :
    (_handleEnd c { s with circleLeft := a, circleTop := b } x y tch now).2 =
      (_handleEnd c s x y tch now).2 := by
  simp only [_handleEnd]
  (repeat' split) <;> simp_all

/-- C5: a pointer move that passes the guard sets the circle offset to the
raw displacement clamped per axis to `±(container − cursor)/2`; the
clamped value stays within those bounds however large the raw displacement
is, and the clamp leaves the session origin untouched, so the gesture
classification of a later release is exactly what it would have been
without the move. -/
theorem cursor_clamp (α : Type) (c : InternalConfig α) (W H w h : ℤ)
    (s : PadState) (x y ex ey now : ℤ) (isTouch tch : Bool)
    (hproc : (!isTouch && !s.mouseDown) = false) (hW : w ≤ W) (hH : h ≤ H) :
    (_handleMove W H w h s x y isTouch).circleLeft =
      some (max (min ((x - s.startX : ℤ) : ℚ) (((W - w : ℤ) : ℚ) / 2))
        (-(((W - w : ℤ) : ℚ) / 2))) ∧
    (_handleMove W H w h s x y isTouch).circleTop =
      some (max (min ((y - s.startY : ℤ) : ℚ) (((H - h : ℤ) : ℚ) / 2))
        (-(((H - h : ℤ) : ℚ) / 2))) ∧
    (∀ q : ℚ, (_handleMove W H w h s x y isTouch).circleLeft = some q →
      -(((W - w : ℤ) : ℚ) / 2) ≤ q ∧ q ≤ ((W - w : ℤ) : ℚ) / 2) ∧
    (∀ q : ℚ, (_handleMove W H w h s x y isTouch).circleTop = some q →
      -(((H - h : ℤ) : ℚ) / 2) ≤ q ∧ q ≤ ((H - h : ℤ) : ℚ) / 2) ∧
    (_handleMove W H w h s x y isTouch).startX = s.startX ∧
    (_handleMove W H w h s x y isTouch).startY = s.startY ∧
    (_handleEnd c (_handleMove W H w h s x y isTouch) ex ey tch now).2 =
      (_handleEnd c s ex ey tch now).2 := by
  have hMv : _handleMove W H w h s x y isTouch =
      { s with
        circleLeft := some (max (min ((x - s.startX : ℤ) : ℚ)
                              (((W - w : ℤ) : ℚ) / 2)) (-(((W - w : ℤ) : ℚ) / 2))),
        circleTop := some (max (min ((y - s.startY : ℤ) : ℚ)
                              (((H - h : ℤ) : ℚ) / 2)) (-(((H - h : ℤ) : ℚ) / 2))) } := by
    simp only [_handleMove]
    rw [if_neg (by simp [hproc])]
  have hmX : (0 : ℚ) ≤ ((W - w : ℤ) : ℚ) / 2 := by
    have h0 : (0 : ℚ) ≤ ((W - w : ℤ) : ℚ) := by exact_mod_cast sub_nonneg.mpr hW
    linarith
  have hmY : (0 : ℚ) ≤ ((H - h : ℤ) : ℚ) / 2 := by
    have h0 : (0 : ℚ) ≤ ((H - h : ℤ) : ℚ) := by exact_mod_cast sub_nonneg.mpr hH
    linarith
  refine ⟨by rw [hMv], by rw [hMv], fun q hq => ?_, fun q hq => ?_,
    by rw [hMv], by rw [hMv], ?_⟩
  · rw [hMv] at hq
    simp only [Option.some.injEq] at hq
    subst hq
    exact ⟨le_max_right _ _, max_le (min_le_right _ _) (by linarith)⟩
  · rw [hMv] at hq
    simp only [Option.some.injEq] at hq
    subst hq
    exact ⟨le_max_right _ _, max_le (min_le_right _ _) (by linarith)⟩
  · rw [hMv]
    exact handleEnd_ignores_circle α c s _ _ ex ey tch now

/-- C5 witness: a mouse drag (button held) to `(500, -500)` far outside a
`300 × 280` pad with a `40 × 36` cursor: the recorded offset is the clamp
term on each axis, and a later release classifies identically with or
without the move. -/
theorem cursor_clamp_witness :
    (_handleMove 300 280 40 36 mouseDragState 500 (-500) false).circleLeft =
      some (max (min ((500 - mouseDragState.startX : ℤ) : ℚ)
        (((300 - 40 : ℤ) : ℚ) / 2)) (-(((300 - 40 : ℤ) : ℚ) / 2))) ∧
    (_handleMove 300 280 40 36 mouseDragState 500 (-500) false).circleTop =
      some (max (min ((-500 - mouseDragState.startY : ℤ) : ℚ)
        (((280 - 36 : ℤ) : ℚ) / 2)) (-(((280 - 36 : ℤ) : ℚ) / 2))) ∧
    (_handleEnd defaultConfig (_handleMove 300 280 40 36 mouseDragState 500 (-500) false)
        500 (-500) true 1000).2 =
      (_handleEnd defaultConfig mouseDragState 500 (-500) true 1000).2 := by
  have h := cursor_clamp ℕ defaultConfig 300 280 40 36 mouseDragState
    500 (-500) 500 (-500) 1000 false true (by decide) (by decide) (by decide)
  exact ⟨h.1, h.2.1, h.2.2.2.2.2.2⟩

/-- C8, evaluated against the code: `disconnectedCallback` preserves the
`_timeout` handle for every state, and concretely a deferred tap scheduled
for time 1200 still fires after teardown — teardown does not cancel it. -/
theorem pending_tap_survives_teardown :
    (∀ s : PadState, (disconnectedCallback s).pendingTapAt = s.pendingTapAt) ∧
    tappedState.pendingTapAt = some 1200 ∧
    (advanceTo (disconnectedCallback tappedState) 1200).2 = [Gesture.tap] := by
  exact ⟨fun s => rfl, by decide, by decide⟩

/-- C6 counterexample: a non-touch press-end leaves the circle offset and
the transition disabled (the early-ignore guard returns before the reset),
so the claim's "touch or non-touch" scope fails at this input. -/
theorem mouse_end_does_not_reset_circle :
    ¬ ((_handleEnd defaultConfig mouseDragState 0 0 false 1000).1.circleLeft = none ∧
       (_handleEnd defaultConfig mouseDragState 0 0 false 1000).1.circleTop = none ∧
       (_handleEnd defaultConfig mouseDragState 0 0 false 1000).1.transitionOn = true) := by
  decide
